import Mathlib

/-!
Verification of the task-execution engine of `pc_agent` (file
`src/pc_agent/task_executor.py`): the step state machine (`TaskStep`), the
action dispatcher (`_execute_single_step` and the per-action handlers), the
retry loop (`_execute_step_with_retries`), the abort policy
(`_should_abort_on_failure`), the plan loop (`_execute_plan`), the heuristic
planner fallback (`_create_basic_plan` / `_create_execution_plan`) and the
top-level entry point (`execute`).

Modelling conventions:
* Python dict-key presence is modelled with `Option` fields;
* collaborator calls (desktop, browser, vision, LLM) return
  `Except String Bool` where `.error` models a raised exception;
* the outside world may change between attempts, so it is a family
  `Nat → Collaborators` indexed by a tick that advances once per dispatch;
* `time.sleep` delays and wall-clock timestamps carry no logical content and
  are dropped (`start_time` / `end_time` are kept only as presence markers);
* Python string comparison is embedded as decidable propositional equality.
-/

namespace PCAgent

/-- Python's `str.lower()` (character-wise lowering; the action names and
task descriptions compared in the source are ASCII).  Defined by a
structural `List.map` so that concrete executions reduce in the kernel. -/
def strLower (s : String) : String :=
  ⟨s.data.map Char.toLower⟩

/-- `pat.isPrefixOf s` on character lists, structurally. -/
def charsPrefixOf : List Char → List Char → Bool
  | [], _ => true
  | _ :: _, [] => false
  | a :: as, b :: bs => a = b && charsPrefixOf as bs

/-- Substring occurrence on character lists, structurally. -/
def charsContains : List Char → List Char → Bool
  | [], pat => charsPrefixOf pat []
  | c :: rest, pat => charsPrefixOf pat (c :: rest) || charsContains rest pat

/-- Python's `pat in s` substring test. -/
def strContains (s pat : String) : Bool :=
  charsContains s.data pat.data

/-- The five step statuses of `TaskStep.status`. -/
inductive StepStatus where
  | pending
  | running
  | completed
  | failed
  | skipped
deriving DecidableEq, Repr

/-- The `parameters` dict of a step; each field models one dict key read by
the action handlers, `none` meaning the key is absent. -/
structure Params where
  coordinates : Option (Int × Int) := none
  selector : Option String := none
  text : Option String := none
  template : Option String := none
  url : Option String := none
  key : Option String := none
  duration : Option Nat := none
  direction : Option String := none
  amount : Option Nat := none
  task : Option String := none
deriving DecidableEq, Repr

/-- Runtime step record: the fields set in `TaskStep.__init__`, spec plus
execution tracking.  Timestamps are kept as presence markers only. -/
structure TaskStep where
  step_number : Nat
  action : String
  description : String
  parameters : Params
  success_criteria : String
  timeout : Nat
  retries : Nat
  status : StepStatus
  start_time : Option Unit
  end_time : Option Unit
  error_message : Option String
  result : Option String
  attempts : Nat
deriving DecidableEq, Repr

/-- `TaskStep.start`: pending/whatever → running, stamps `start_time`,
increments `attempts`. -/
def TaskStep.start (s : TaskStep) : TaskStep :=
  { s with status := StepStatus.running, start_time := some (), attempts := s.attempts + 1 }

/-- `TaskStep.complete(result)`: → completed, stamps `end_time`, stores the
result. -/
def TaskStep.complete (s : TaskStep) (res : Option String) : TaskStep :=
  { s with status := StepStatus.completed, end_time := some (), result := res }

/-- `TaskStep.fail(error)`: → failed, stamps `end_time`, stores the error
message. -/
def TaskStep.fail (s : TaskStep) (error : String) : TaskStep :=
  { s with status := StepStatus.failed, end_time := some (), error_message := some error }

/-- `TaskStep.skip(reason)`: → skipped, stamps `end_time`, stores the reason
in `error_message`. -/
def TaskStep.skip (s : TaskStep) (reason : String) : TaskStep :=
  { s with status := StepStatus.skipped, end_time := some (), error_message := some reason }

/-- A step dict as it appears in a plan (`step_data`); `none` models a
missing key, defaulted by `TaskStep.__init__`. -/
structure StepData where
  step_number : Option Nat := none
  action : Option String := none
  description : Option String := none
  parameters : Option Params := none
  success_criteria : Option String := none
  timeout : Option Nat := none
  retries : Option Nat := none
deriving DecidableEq, Repr

/-- `TaskStep.__init__(step_data)`: apply the `dict.get` defaults and reset
the execution-tracking fields. -/
def TaskStep.ofData (d : StepData) : TaskStep :=
  { step_number := d.step_number.getD 0
    action := d.action.getD ""
    description := d.description.getD ""
    parameters := d.parameters.getD {}
    success_criteria := d.success_criteria.getD ""
    timeout := d.timeout.getD 30
    retries := d.retries.getD 2
    status := StepStatus.pending
    start_time := none
    end_time := none
    error_message := none
    result := none
    attempts := 0 }

/-- A plan dict.  `error` models the presence of an `'error'` key in the
dict returned by the planner (`'error' in plan` in `execute`). -/
structure Plan where
  task : String := ""
  steps : List StepData := []
  estimated_duration : String := ""
  prerequisites : List String := []
  potential_issues : List String := []
  error : Option String := none
deriving DecidableEq, Repr

/-- The collaborator interface consulted by the dispatcher, one field per
external call made by the action handlers.  `.error` models a raised
exception; `captureAndAnalyze` bundles `capture_screen` + `analyze_image`
(`none` models a `None` analysis result). -/
structure Collaborators where
  clickAt : Int → Int → Except String Bool
  clickElement : String → Except String Bool
  clickElementByText : String → Except String Bool
  clickTemplate : String → Except String Bool
  typeInElement : String → String → Except String Bool
  typeText : String → Except String Bool
  navigateTo : String → Except String Bool
  captureAndAnalyze : Except String (Option String)
  claudeAvailable : Bool
  webDriverActive : Bool
  scrollWeb : String → Nat → Except String Bool
  scrollDesktop : String → Nat → Except String Bool
  pressKey : String → Except String Bool

/-- `_execute_click_action`: first present key among `coordinates`,
`selector`, `text`, `template` picks the delegate; all absent ⇒ failure. -/
def executeClickAction (env : Collaborators) (params : Params) : Except String Bool :=
  match params.coordinates with
  | some (x, y) => env.clickAt x y
  | none =>
    match params.selector with
    | some sel => env.clickElement sel
    | none =>
      match params.text with
      | some t => env.clickElementByText t
      | none =>
        match params.template with
        | some tpl => env.clickTemplate tpl
        | none => Except.ok false

/-- `_execute_type_action`: type into the selected element when a selector
is present, else to OS focus. -/
def executeTypeAction (env : Collaborators) (params : Params) : Except String Bool :=
  let text := params.text.getD ""
  match params.selector with
  | some sel => env.typeInElement sel text
  | none => env.typeText text

/-- `_execute_navigate_action`: failure when the URL is missing or empty. -/
def executeNavigateAction (env : Collaborators) (params : Params) : Except String Bool :=
  let url := params.url.getD ""
  if url = "" then Except.ok false else env.navigateTo url

/-- `_execute_analyze_action`: success iff the vision collaborator returns a
non-null result; its own `try/except` absorbs exceptions into failure. -/
def executeAnalyzeAction (env : Collaborators) : Bool :=
  match env.captureAndAnalyze with
  | Except.ok r => r.isSome
  | Except.error _ => false

/-- `_execute_decide_action`: a no-op returning `True` when the LLM client
is unavailable, and also `True` when it is available (the body only reads
`params['task']` and returns `True`). -/
def executeDecideAction (env : Collaborators) (params : Params) : Bool :=
  if env.claudeAvailable = false then
    true
  else
    let _task := params.task.getD ""
    true

/-- `_execute_scroll_action`: browser automation when a web driver session
is active, else desktop automation. -/
def executeScrollAction (env : Collaborators) (params : Params) : Except String Bool :=
  let direction := params.direction.getD "down"
  let amount := params.amount.getD 3
  if env.webDriverActive then env.scrollWeb direction amount
  else env.scrollDesktop direction amount

/-- `_execute_key_action`: failure when the key is missing or empty. -/
def executeKeyAction (env : Collaborators) (params : Params) : Except String Bool :=
  let key := params.key.getD ""
  if key = "" then Except.ok false else env.pressKey key

/-- `_execute_single_step`: lower-case the action, dispatch down the
`if/elif` chain; an unknown action returns failure; the surrounding
`try/except` converts any handler exception into `False`. -/
def executeSingleStep (env : Collaborators) (step : TaskStep) : Bool :=
  let action := strLower step.action
  let res : Except String Bool :=
    if action = "click" then executeClickAction env step.parameters
    else if action = "type" then executeTypeAction env step.parameters
    else if action = "navigate" then executeNavigateAction env step.parameters
    else if action = "wait" then Except.ok true
    else if action = "analyze" then Except.ok (executeAnalyzeAction env)
    else if action = "decide" then Except.ok (executeDecideAction env step.parameters)
    else if action = "scroll" then executeScrollAction env step.parameters
    else if action = "key" then executeKeyAction env step.parameters
    else Except.ok false
  match res with
  | Except.ok b => b
  | Except.error _ => false

/-- Result of `_execute_step_with_retries`: the mutated step record, the
returned boolean, and the advanced world tick. -/
structure RetryResult where
  step : TaskStep
  success : Bool
  tick : Nat
deriving Repr

/-- The body of `_execute_step_with_retries`, recursing on the number of
retries remaining after the current attempt (`attempt < step.retries` in
Python ⇔ `remaining > 0`).  `dispatch tick` is the outcome of
`_execute_single_step` at that point in time; `.error` models the
`except` branch of the loop. -/
def retryGo (dispatch : Nat → Except String Bool) :
    Nat → Nat → TaskStep → RetryResult
  | remaining, tick, step =>
    let s1 := step.start
    match dispatch tick with
    | Except.ok true => ⟨s1.complete none, true, tick + 1⟩
    | Except.ok false =>
      match remaining with
      | 0 => ⟨s1.fail "Max retries exceeded", false, tick + 1⟩
      | r + 1 => retryGo dispatch r (tick + 1) s1
    | Except.error e =>
      match remaining with
      | 0 => ⟨s1.fail ("Step execution error: " ++ e), false, tick + 1⟩
      | r + 1 => retryGo dispatch r (tick + 1) s1

/-- `_execute_step_with_retries(step)`: run the retry loop with the real
dispatcher; `_execute_single_step` never raises (its own `try/except`
returns `False`), hence the `.ok` wrapping. -/
def executeStepWithRetries (world : Nat → Collaborators) (tick : Nat)
    (step : TaskStep) : RetryResult :=
  retryGo (fun t => Except.ok (executeSingleStep (world t) step)) step.retries tick step

/-- The counter loop of `_should_abort_on_failure`: count consecutive
`failed` statuses from the head of the list, stopping at the first
non-failed step. -/
def consecFailCount : List TaskStep → Nat
  | [] => 0
  | s :: rest =>
    if s.status = StepStatus.failed then consecFailCount rest + 1 else 0

/-- `_should_abort_on_failure(failed_step, remaining_steps)`: abort
unconditionally on a critical action (`navigate`/`analyze`,
case-insensitively); otherwise abort when the counter loop reaches 2.
Note: the only call site passes the FULL `task_steps` list (with the
records executed so far mutated in place), not the remaining suffix. -/
def shouldAbortOnFailure (failedStep : TaskStep) (steps : List TaskStep) : Bool :=
  if strLower failedStep.action = "navigate" ∨ strLower failedStep.action = "analyze" then
    true
  else if 2 ≤ consecFailCount steps then true
  else false

/-- Outcome of the step loop of `_execute_plan`: the executed records (the
snapshots appended to `execution_log['steps']`), the untouched remaining
records (left `pending` after an abort), and the two counters. -/
structure LoopResult where
  executed : List TaskStep
  remaining : List TaskStep
  completed : Nat
  failed : Nat
deriving Repr

/-- The step loop of `_execute_plan`: run each step through the retry loop;
on failure consult `_should_abort_on_failure` with the full, partially
mutated `task_steps` list (`done ++ current ++ rest`) and break on abort. -/
def execLoopGo (world : Nat → Collaborators) :
    List TaskStep → List TaskStep → Nat → Nat → Nat → LoopResult
  | _, [], _, c, f => ⟨[], [], c, f⟩
  | done, step :: rest, tick, c, f =>
    let r := executeStepWithRetries world tick step
    if r.success then
      let q := execLoopGo world (done ++ [r.step]) rest r.tick (c + 1) f
      ⟨r.step :: q.executed, q.remaining, q.completed, q.failed⟩
    else if shouldAbortOnFailure r.step (done ++ r.step :: rest) then
      ⟨[r.step], rest, c, f + 1⟩
    else
      let q := execLoopGo world (done ++ [r.step]) rest r.tick c (f + 1)
      ⟨r.step :: q.executed, q.remaining, q.completed, q.failed⟩

/-- Run the step loop of `_execute_plan` on a plan's steps, from a fresh
state. -/
def runPlan (world : Nat → Collaborators) (plan : Plan) : LoopResult :=
  execLoopGo world [] (plan.steps.map TaskStep.ofData) 0 0 0

/-- The status aggregation at the end of `_execute_plan`. -/
def overallStatus (completed failed : Nat) : String :=
  if failed = 0 then "completed"
  else if 0 < completed then "partially_completed"
  else "failed"

/-- The `execution_log` dict returned by `_execute_plan` (timestamps
dropped). -/
structure ExecutionLog where
  task : String
  plan : Plan
  steps : List TaskStep
  status : String
  completed_steps : Nat
  failed_steps : Nat
  total_steps : Nat
deriving DecidableEq, Repr

/-- `_execute_plan(plan, original_task)`: build the records, run the loop,
aggregate the status.  The loop body is total, so the `except` branch that
would set status `error` is unreachable. -/
def executePlan (world : Nat → Collaborators) (plan : Plan)
    (originalTask : String) : ExecutionLog :=
  let task_steps := plan.steps.map TaskStep.ofData
  let q := execLoopGo world [] task_steps 0 0 0
  { task := originalTask
    plan := plan
    steps := q.executed
    status := overallStatus q.completed q.failed
    completed_steps := q.completed
    failed_steps := q.failed
    total_steps := task_steps.length }

/-- `_create_basic_plan(task_description)`: the heuristic fallback — a fixed
3-step Google-search plan when the lowered description contains both
`search` and `google`, else a generic `analyze` + `decide` plan. -/
def createBasicPlan (taskDescription : String) : Plan :=
  let task_lower := strLower taskDescription
  let steps : List StepData :=
    if strContains task_lower "search" ∧ strContains task_lower "google" then
      [ { step_number := some 1, action := some "navigate"
          description := some "Open Google search"
          parameters := some { url := some "https://www.google.com" }
          success_criteria := some "Google homepage loaded" }
      , { step_number := some 2, action := some "type"
          description := some "Enter search query"
          parameters := some { selector := some "input[name=q]", text := some "search query" }
          success_criteria := some "Text entered in search box" }
      , { step_number := some 3, action := some "click"
          description := some "Click search button or press Enter"
          parameters := some { key := some "enter" }
          success_criteria := some "Search results displayed" } ]
    else
      [ { step_number := some 1, action := some "analyze"
          description := some "Analyze current screen state"
          parameters := some {}
          success_criteria := some "Screen analysis completed" }
      , { step_number := some 2, action := some "decide"
          description := some "Determine best approach based on analysis"
          parameters := some { task := some taskDescription }
          success_criteria := some "Action plan determined" } ]
  { task := taskDescription
    steps := steps
    estimated_duration := "1-2 minutes"
    prerequisites := []
    potential_issues := ["Screen layout may differ from expected"] }

/-- Caller-supplied context mapping. -/
abbrev Context := List (String × String)

/-- The LLM planner collaborator: availability flag
(`claude_client and claude_client.is_available()`) and `plan_task`, whose
`.error` outcome models an exception raised anywhere inside the `try` of
`_create_execution_plan` (screen capture, vision analysis or the planner
call itself — all hit the same `except` clause). -/
structure Planner where
  available : Bool
  planTask : String → Context → Except String Plan

/-- `_create_execution_plan`: heuristic fallback when the planner is
unavailable or the `try` body raises; otherwise the planner's plan is
returned as-is (even when it carries an `'error'` key). -/
def createExecutionPlan (planner : Planner) (task : String) (ctx : Context) : Plan :=
  if planner.available = false then createBasicPlan task
  else
    match planner.planTask task ctx with
    | Except.ok plan => plan
    | Except.error _ => createBasicPlan task

/-- The three dict shapes `execute` can return: the plan-creation-failure
dict (`status 'failed'`), an execution log, or the top-level exception dict
(`status 'error'`). -/
inductive ExecResult where
  | planFailed (details : Plan)
  | log (l : ExecutionLog)
  | errorResult (msg : String) (task : String)
deriving Repr

/-- The `status` field of each result shape of `execute`. -/
def ExecResult.status : ExecResult → String
  | ExecResult.planFailed _ => "failed"
  | ExecResult.log l => l.status
  | ExecResult.errorResult _ _ => "error"

/-- The body of the top-level `try` in `execute`: create the plan; surface
a plan dict carrying an `'error'` key as a `status 'failed'` result, else
run the plan. -/
def executeBody (planner : Planner) (world : Nat → Collaborators)
    (task : String) (ctx : Context) : Except String ExecResult :=
  let plan := createExecutionPlan planner task ctx
  if plan.error.isSome then
    Except.ok (ExecResult.planFailed plan)
  else
    Except.ok (ExecResult.log (executePlan world plan task))

/-- `execute(task_description, context)`: the top-level `try/except` — any
exception escaping the body becomes a `status 'error'` result, so the call
itself never raises. -/
def execute (planner : Planner) (world : Nat → Collaborators)
    (task : String) (ctx : Context) : Except String ExecResult :=
  match executeBody planner world task ctx with
  | Except.ok r => Except.ok r
  | Except.error e => Except.ok (ExecResult.errorResult e task)

/-! ### Concrete collaborator environments and plans used in witnesses,
counterexamples and failing-input evaluations -/

/-- A baseline world: desktop clicks succeed, every other collaborator call
reports failure, the vision result is null, no LLM, no web driver. -/
def envBase : Collaborators :=
  { clickAt := fun _ _ => Except.ok true
    clickElement := fun _ => Except.ok false
    clickElementByText := fun _ => Except.ok false
    clickTemplate := fun _ => Except.ok false
    typeInElement := fun _ _ => Except.ok false
    typeText := fun _ => Except.ok false
    navigateTo := fun _ => Except.ok false
    captureAndAnalyze := Except.ok none
    claudeAvailable := false
    webDriverActive := false
    scrollWeb := fun _ _ => Except.ok false
    scrollDesktop := fun _ _ => Except.ok false
    pressKey := fun _ => Except.ok false }

/-- Time-invariant baseline world. -/
def worldBase : Nat → Collaborators := fun _ => envBase

/-- Like `envBase` but browser navigation succeeds. -/
def envNavOk : Collaborators :=
  { envBase with navigateTo := fun _ => Except.ok true }

/-- Time-invariant world with working navigation. -/
def worldNavOk : Nat → Collaborators := fun _ => envNavOk

/-- A navigate step with a URL and no retries. -/
def navStepD : StepData :=
  { step_number := some 1
    action := some "navigate"
    parameters := some { url := some "https://example.org" }
    retries := some 0 }

/-- A wait step with no retries. -/
def waitStepD : StepData :=
  { step_number := some 2
    action := some "wait"
    retries := some 0 }

/-- A click step carrying coordinates, no retries. -/
def clickCoordStepD : StepData :=
  { step_number := some 1
    action := some "click"
    parameters := some { coordinates := some (1, 2) }
    retries := some 0 }

/-- A click step with no target parameters at all, no retries. -/
def clickEmptyStepD (n : Nat) : StepData :=
  { step_number := some n
    action := some "click"
    parameters := some {}
    retries := some 0 }

/-- Plan whose first step is a critical `navigate` that will fail under
`worldBase`, followed by a `wait` step. -/
def planCrit : Plan := { task := "t", steps := [navStepD, waitStepD] }

/-- Plan with a succeeding click, then two terminally failing clicks, then a
wait: two consecutive executed failures at positions 2 and 3. -/
def planTwoFails : Plan :=
  { task := "t"
    steps := [clickCoordStepD, clickEmptyStepD 2, clickEmptyStepD 3,
              { step_number := some 4, action := some "wait", retries := some 0 }] }

/-- Scenario B plan: `navigate` (succeeds under `worldNavOk`), then a
non-critical `click` that fails all its (default 2) retries. -/
def planScenarioB : Plan :=
  { task := "t"
    steps := [ { step_number := some 1, action := some "navigate"
                 parameters := some { url := some "https://example.org" } }
             , { step_number := some 2, action := some "click"
                 parameters := some {} } ] }

/-- A fresh step whose action is outside the dispatch vocabulary. -/
def fooStep : TaskStep := TaskStep.ofData { action := some "foo", retries := some 2 }

/-- A fresh no-target click step with one retry, for bound witnesses. -/
def clickRetryStep : TaskStep :=
  TaskStep.ofData { action := some "click", parameters := some {}, retries := some 1 }

/-- A record that has reached the `completed` terminal state. -/
def completedRec : TaskStep := (TaskStep.ofData {}).start.complete none

/-- The planner payload of an unparsable LLM response: the dict
`json.JSONDecodeError` turns into carries an `'error'` key. -/
def badPlan : Plan := { task := "t", error := some "Could not parse JSON response" }

/-- An available planner whose output is the unparsable-response dict. -/
def badPlanner : Planner := ⟨true, fun _ _ => Except.ok badPlan⟩

/-- An unavailable planner. -/
def unavailPlanner : Planner := ⟨false, fun _ _ => Except.ok badPlan⟩

/-- An available planner whose call raises. -/
def throwingPlanner : Planner := ⟨true, fun _ _ => Except.error "boom"⟩

/-- A fresh decide step. -/
def decideStep : TaskStep := TaskStep.ofData { action := some "decide" }

/-- A world in which the LLM client is configured and available. -/
def worldClaude : Nat → Collaborators :=
  fun _ => { envBase with claudeAvailable := true }

/-! ### Helper lemmas about the retry loop -/

theorem retryGo_action (d : Nat → Except String Bool) :
    ∀ (rem tick : Nat) (s : TaskStep),
      (retryGo d rem tick s).step.action = s.action := by
  intro rem
  induction rem with
  | zero =>
    intro tick s
    rw [retryGo]
    cases h : d tick with
    | ok b =>
      cases b <;> simp [h, TaskStep.start, TaskStep.complete, TaskStep.fail]
    | error e => simp [h, TaskStep.start, TaskStep.fail]
  | succ r ih =>
    intro tick s
    rw [retryGo]
    cases h : d tick with
    | ok b =>
      cases b
      · simpa [h, TaskStep.start] using ih (tick + 1) s.start
      · simp [h, TaskStep.start, TaskStep.complete]
    | error e => simpa [h, TaskStep.start] using ih (tick + 1) s.start

theorem retryGo_status (d : Nat → Except String Bool) :
    ∀ (rem tick : Nat) (s : TaskStep),
      (retryGo d rem tick s).step.status =
        (if (retryGo d rem tick s).success = true then StepStatus.completed
         else StepStatus.failed) := by
  intro rem
  induction rem with
  | zero =>
    intro tick s
    rw [retryGo]
    cases h : d tick with
    | ok b =>
      cases b <;> simp [h, TaskStep.start, TaskStep.complete, TaskStep.fail]
    | error e => simp [h, TaskStep.start, TaskStep.fail]
  | succ r ih =>
    intro tick s
    rw [retryGo]
    cases h : d tick with
    | ok b =>
      cases b
      · simpa [h, TaskStep.start] using ih (tick + 1) s.start
      · simp [h, TaskStep.start, TaskStep.complete]
    | error e => simpa [h, TaskStep.start] using ih (tick + 1) s.start

theorem retryGo_attempts_le (d : Nat → Except String Bool) :
    ∀ (rem tick : Nat) (s : TaskStep),
      (retryGo d rem tick s).step.attempts ≤ s.attempts + rem + 1 := by
  intro rem
  induction rem with
  | zero =>
    intro tick s
    rw [retryGo]
    cases h : d tick with
    | ok b =>
      cases b <;> simp [h, TaskStep.start, TaskStep.complete, TaskStep.fail]
    | error e => simp [h, TaskStep.start, TaskStep.fail]
  | succ r ih =>
    intro tick s
    rw [retryGo]
    cases h : d tick with
    | ok b =>
      cases b
      · have := ih (tick + 1) s.start
        simp [h, TaskStep.start] at this ⊢
        omega
      · simp [h, TaskStep.start, TaskStep.complete]
    | error e =>
      have := ih (tick + 1) s.start
      simp [h, TaskStep.start] at this ⊢
      omega

theorem retryGo_attempts_ge (d : Nat → Except String Bool) :
    ∀ (rem tick : Nat) (s : TaskStep),
      s.attempts + 1 ≤ (retryGo d rem tick s).step.attempts := by
  intro rem
  induction rem with
  | zero =>
    intro tick s
    rw [retryGo]
    cases h : d tick with
    | ok b =>
      cases b <;> simp [h, TaskStep.start, TaskStep.complete, TaskStep.fail]
    | error e => simp [h, TaskStep.start, TaskStep.fail]
  | succ r ih =>
    intro tick s
    rw [retryGo]
    cases h : d tick with
    | ok b =>
      cases b
      · have := ih (tick + 1) s.start
        simp [h, TaskStep.start] at this ⊢
        omega
      · simp [h, TaskStep.start, TaskStep.complete]
    | error e =>
      have := ih (tick + 1) s.start
      simp [h, TaskStep.start] at this ⊢
      omega

theorem retryGo_all_false (d : Nat → Except String Bool)
    (hd : ∀ t, d t = Except.ok false) :
    ∀ (rem tick : Nat) (s : TaskStep),
      (retryGo d rem tick s).success = false ∧
      (retryGo d rem tick s).step.status = StepStatus.failed ∧
      (retryGo d rem tick s).step.error_message = some "Max retries exceeded" ∧
      (retryGo d rem tick s).step.attempts = s.attempts + rem + 1 := by
  intro rem
  induction rem with
  | zero =>
    intro tick s
    rw [retryGo]
    simp [hd tick, TaskStep.start, TaskStep.fail]
  | succ r ih =>
    intro tick s
    rw [retryGo]
    have := ih (tick + 1) s.start
    simp [hd tick, TaskStep.start] at this ⊢
    exact ⟨this.1, this.2.1, this.2.2.1, by omega⟩

theorem retryGo_first_true (d : Nat → Except String Bool) (rem tick : Nat)
    (s : TaskStep) (h : d tick = Except.ok true) :
    retryGo d rem tick s = ⟨s.start.complete none, true, tick + 1⟩ := by
  cases rem with
  | zero => rw [retryGo]; simp [h]
  | succ r => rw [retryGo]; simp [h]

/-! ### Helper lemmas about the abort policy -/

theorem shouldAbort_of_critical (s : TaskStep) (L : List TaskStep)
    (h : strLower s.action = "navigate" ∨ strLower s.action = "analyze") :
    shouldAbortOnFailure s L = true := by
  rw [shouldAbortOnFailure, if_pos h]

theorem not_critical_of_shouldAbort_false (s : TaskStep) (L : List TaskStep)
    (h : shouldAbortOnFailure s L = false) :
    ¬ (strLower s.action = "navigate" ∨ strLower s.action = "analyze") := by
  intro hc
  rw [shouldAbort_of_critical s L hc] at h
  exact Bool.noConfusion h

/-! ### Helper lemmas about the plan loop -/

theorem execLoop_remaining_mem (world : Nat → Collaborators) :
    ∀ (todo done : List TaskStep) (tick c f : Nat) (s : TaskStep),
      s ∈ (execLoopGo world done todo tick c f).remaining → s ∈ todo := by
  intro todo
  induction todo with
  | nil =>
    intro done tick c f s h
    rw [execLoopGo] at h
    simp at h
  | cons step rest ih =>
    intro done tick c f s h
    rw [execLoopGo] at h
    cases hs : (executeStepWithRetries world tick step).success with
    | true =>
      simp only [hs, if_true] at h
      exact List.mem_cons_of_mem _ (ih _ _ _ _ _ h)
    | false =>
      simp only [hs, Bool.false_eq_true, if_false] at h
      cases ha : shouldAbortOnFailure (executeStepWithRetries world tick step).step
          (done ++ (executeStepWithRetries world tick step).step :: rest) with
      | true =>
        simp only [ha, if_true] at h
        exact List.mem_cons_of_mem _ h
      | false =>
        simp only [ha, Bool.false_eq_true, if_false] at h
        exact List.mem_cons_of_mem _ (ih _ _ _ _ _ h)

theorem execLoop_critical_last (world : Nat → Collaborators) :
    ∀ (todo done : List TaskStep) (tick c f : Nat)
      (pre post : List TaskStep) (s : TaskStep),
      (execLoopGo world done todo tick c f).executed = pre ++ s :: post →
      s.status = StepStatus.failed →
      (strLower s.action = "navigate" ∨ strLower s.action = "analyze") →
      post = [] := by
  intro todo
  induction todo with
  | nil =>
    intro done tick c f pre post s h _ _
    rw [execLoopGo] at h
    exact absurd h (by simp)
  | cons step rest ih =>
    intro done tick c f pre post s h hfail hcrit
    rw [execLoopGo] at h
    cases hs : (executeStepWithRetries world tick step).success with
    | true =>
      simp only [hs, if_true] at h
      cases pre with
      | nil =>
        simp only [List.nil_append, List.cons.injEq] at h
        obtain ⟨h1, h2⟩ := h
        have hst := retryGo_status (fun t => Except.ok (executeSingleStep (world t) step))
          step.retries tick step
        rw [executeStepWithRetries] at hs
        rw [← h1, executeStepWithRetries, hst, if_pos hs] at hfail
        exact absurd hfail (by simp)
      | cons a pre' =>
        simp only [List.cons_append, List.cons.injEq] at h
        exact ih _ _ _ _ pre' post s h.2 hfail hcrit
    | false =>
      simp only [hs, Bool.false_eq_true, if_false] at h
      cases ha : shouldAbortOnFailure (executeStepWithRetries world tick step).step
          (done ++ (executeStepWithRetries world tick step).step :: rest) with
      | true =>
        simp only [ha, if_true] at h
        cases pre with
        | nil =>
          simp only [List.nil_append, List.cons.injEq] at h
          exact h.2.symm
        | cons a pre' =>
          simp only [List.cons_append, List.cons.injEq] at h
          exact absurd h.2.symm (by simp)
      | false =>
        simp only [ha, Bool.false_eq_true, if_false] at h
        cases pre with
        | nil =>
          simp only [List.nil_append, List.cons.injEq] at h
          have hcrit' : strLower (executeStepWithRetries world tick step).step.action = "navigate" ∨
              strLower (executeStepWithRetries world tick step).step.action = "analyze" := by
            rw [h.1]; exact hcrit
          have := shouldAbort_of_critical (executeStepWithRetries world tick step).step
            (done ++ (executeStepWithRetries world tick step).step :: rest) hcrit'
          rw [this] at ha
          exact Bool.noConfusion ha
        | cons a pre' =>
          simp only [List.cons_append, List.cons.injEq] at h
          exact ih _ _ _ _ pre' post s h.2 hfail hcrit

theorem execLoop_executed_terminal (world : Nat → Collaborators) :
    ∀ (todo done : List TaskStep) (tick c f : Nat) (s : TaskStep),
      s ∈ (execLoopGo world done todo tick c f).executed →
      s.status = StepStatus.completed ∨ s.status = StepStatus.failed := by
  intro todo
  induction todo with
  | nil =>
    intro done tick c f s h
    rw [execLoopGo] at h
    simp at h
  | cons step rest ih =>
    intro done tick c f s h
    have hterm : s = (executeStepWithRetries world tick step).step →
        s.status = StepStatus.completed ∨ s.status = StepStatus.failed := by
      intro he
      have hst := retryGo_status (fun t => Except.ok (executeSingleStep (world t) step))
        step.retries tick step
      rw [he, executeStepWithRetries, hst]
      by_cases hsucc :
          (retryGo (fun t => Except.ok (executeSingleStep (world t) step))
            step.retries tick step).success = true
      · rw [if_pos hsucc]; exact Or.inl rfl
      · rw [if_neg hsucc]; exact Or.inr rfl
    rw [execLoopGo] at h
    cases hs : (executeStepWithRetries world tick step).success with
    | true =>
      simp only [hs, if_true] at h
      rcases List.mem_cons.mp h with he | hmem
      · exact hterm he
      · exact ih _ _ _ _ _ hmem
    | false =>
      simp only [hs, Bool.false_eq_true, if_false] at h
      cases ha : shouldAbortOnFailure (executeStepWithRetries world tick step).step
          (done ++ (executeStepWithRetries world tick step).step :: rest) with
      | true =>
        simp only [ha, if_true] at h
        rcases List.mem_singleton.mp h with he
        exact hterm he
      | false =>
        simp only [ha, Bool.false_eq_true, if_false] at h
        rcases List.mem_cons.mp h with he | hmem
        · exact hterm he
        · exact ih _ _ _ _ _ hmem

/-- Iff characterisation of the status aggregation of `_execute_plan`. -/
theorem overallStatus_spec (c f : Nat) :
    ((overallStatus c f = "completed") ↔ f = 0) ∧
    ((overallStatus c f = "partially_completed") ↔ (0 < c ∧ 0 < f)) ∧
    ((overallStatus c f = "failed") ↔ (c = 0 ∧ 0 < f)) := by
  rw [overallStatus]
  by_cases hf : f = 0
  · rw [if_pos hf]
    refine ⟨?_, ?_, ?_⟩ <;> simp <;> omega
  · rw [if_neg hf]
    by_cases hc : 0 < c
    · rw [if_pos hc]
      refine ⟨?_, ?_, ?_⟩ <;> simp <;> omega
    · rw [if_neg hc]
      refine ⟨?_, ?_, ?_⟩ <;> simp <;> omega

/-- The failed navigate record produced from `navStepD` under `worldBase`. -/
def navFailedRec : TaskStep :=
  (executeStepWithRetries worldBase 0 (TaskStep.ofData navStepD)).step

/-- A parameter dict carrying only coordinates. -/
def paramsCoord : Params := { coordinates := some (3, 4) }

/-! ### Claim theorems -/

/-- C1: for every plan and every collaborator behaviour, whenever a step
whose lower-cased action is `navigate` or `analyze` ends `failed` after its
retries, the plan loop stops at once: the failed critical step is the last
executed record, and every remaining record still has status `pending`
(it was never started). -/
theorem critical_failure_stops_plan (world : Nat → Collaborators) (plan : Plan) :
    (∀ s ∈ (runPlan world plan).remaining, s.status = StepStatus.pending) ∧
    (∀ pre post (s : TaskStep), (runPlan world plan).executed = pre ++ s :: post →
      s.status = StepStatus.failed →
      (strLower s.action = "navigate" ∨ strLower s.action = "analyze") →
      post = []) := by
  constructor
  · intro s hs
    have hmem := execLoop_remaining_mem world _ [] 0 0 0 s hs
    rcases List.mem_map.mp hmem with ⟨d, _, rfl⟩
    rfl
  · intro pre post s h hf hc
    exact execLoop_critical_last world _ [] 0 0 0 pre post s h hf hc

/-- Witness for C1: under `worldBase` the `planCrit` run fails its critical
navigate step; the theorem applied there shows the trailing `wait` record is
still pending and nothing follows the failed critical record. -/
theorem critical_failure_stops_plan_witness :
    (TaskStep.ofData waitStepD).status = StepStatus.pending ∧
    ([] : List TaskStep) = [] :=
  ⟨(critical_failure_stops_plan worldBase planCrit).1 (TaskStep.ofData waitStepD) (by decide),
   (critical_failure_stops_plan worldBase planCrit).2 [] [] navFailedRec (by decide) (by decide)
     (Or.inl (by decide))⟩

/-- C2 (code-bug evaluation): in `planTwoFails` under `worldBase` the
executed steps come out `completed, failed, failed, completed` — positions
2 and 3 are two consecutive executed failures, yet the run is not aborted:
the fourth step still executes and no step is left pending, because
`_should_abort_on_failure` only counts consecutive `failed` statuses from
the head of the full `task_steps` list. -/
theorem consecutive_failures_do_not_abort :
    (runPlan worldBase planTwoFails).executed.map TaskStep.status =
      [StepStatus.completed, StepStatus.failed, StepStatus.failed,
       StepStatus.completed] ∧
    (runPlan worldBase planTwoFails).remaining = [] := by
  exact ⟨by decide, by decide⟩

/-- C3: the final log status is the claimed pure function of the outcome
counters — `completed` iff no failure, `partially_completed` iff both a
success and a failure, `failed` iff failures and no success — and scenario B
(`navigate` succeeds, non-critical `click` fails all retries) yields
`partially_completed` with counters 1/1/2. -/
theorem final_status_pure_function (world : Nat → Collaborators) (plan : Plan)
    (task : String) :
    (((executePlan world plan task).status = "completed") ↔
      (executePlan world plan task).failed_steps = 0) ∧
    (((executePlan world plan task).status = "partially_completed") ↔
      (0 < (executePlan world plan task).completed_steps ∧
        0 < (executePlan world plan task).failed_steps)) ∧
    (((executePlan world plan task).status = "failed") ↔
      ((executePlan world plan task).completed_steps = 0 ∧
        0 < (executePlan world plan task).failed_steps)) ∧
    (executePlan worldNavOk planScenarioB "t").status = "partially_completed" ∧
    (executePlan worldNavOk planScenarioB "t").completed_steps = 1 ∧
    (executePlan worldNavOk planScenarioB "t").failed_steps = 1 ∧
    (executePlan worldNavOk planScenarioB "t").total_steps = 2 := by
  refine ⟨?_, ?_, ?_, by decide, by decide, by decide, by decide⟩
  · simp only [executePlan]
    exact (overallStatus_spec _ _).1
  · simp only [executePlan]
    exact (overallStatus_spec _ _).2.1
  · simp only [executePlan]
    exact (overallStatus_spec _ _).2.2

/-- C4: for a fresh step the retry loop makes at most `retries + 1`
attempts, and when the first dispatch fails and at least one retry is
configured, at least a second attempt is made. -/
theorem retry_attempt_bound (world : Nat → Collaborators) (tick : Nat) (step : TaskStep)
    (h0 : step.attempts = 0) :
    (executeStepWithRetries world tick step).step.attempts ≤ step.retries + 1 ∧
    (executeSingleStep (world tick) step = false → 1 ≤ step.retries →
      2 ≤ (executeStepWithRetries world tick step).step.attempts) := by
  constructor
  · have := retryGo_attempts_le (fun t => Except.ok (executeSingleStep (world t) step))
      step.retries tick step
    rw [executeStepWithRetries]
    omega
  · intro hfirst hr
    obtain ⟨r, hr'⟩ : ∃ r, step.retries = r + 1 := ⟨step.retries - 1, by omega⟩
    rw [executeStepWithRetries, hr']
    rw [retryGo]
    simp only [hfirst]
    refine le_trans ?_ (retryGo_attempts_ge
      (fun t => Except.ok (executeSingleStep (world t) step)) r (tick + 1) _)
    show 2 ≤ step.attempts + 1 + 1
    omega

/-- Witness for C4: a fresh no-target click step with one retry under
`worldBase` respects both bounds. -/
theorem retry_attempt_bound_witness :
    (executeStepWithRetries worldBase 0 clickRetryStep).step.attempts ≤
      clickRetryStep.retries + 1 ∧
    2 ≤ (executeStepWithRetries worldBase 0 clickRetryStep).step.attempts :=
  ⟨(retry_attempt_bound worldBase 0 clickRetryStep (by decide)).1,
   (retry_attempt_bound worldBase 0 clickRetryStep (by decide)).2 (by decide) (by decide)⟩

/-- C5 counterexample: an available planner that returns the
unparsable-response payload (a dict with an `'error'` key) makes `execute`
return a `status 'failed'` result to the caller — the heuristic fallback is
NOT used and the planning failure IS surfaced. -/
theorem planning_failure_surfaced_cex :
    execute badPlanner worldBase "open the settings page" [] =
      Except.ok (ExecResult.planFailed badPlan) ∧
    (ExecResult.planFailed badPlan).status = "failed" := by
  exact ⟨rfl, rfl⟩

/-- C5 amended: when the planner is unavailable or raises, the failure is
absorbed and the heuristic fallback plan is used; but when the planner
RETURNS a payload carrying an `'error'` key (an unparsable response),
`execute` surfaces it as a `status 'failed'` result instead of falling
back. -/
theorem planning_failure_amended (planner : Planner) (world : Nat → Collaborators)
    (task : String) (ctx : Context) :
    (planner.available = false → createExecutionPlan planner task ctx = createBasicPlan task) ∧
    (∀ e, planner.available = true → planner.planTask task ctx = Except.error e →
      createExecutionPlan planner task ctx = createBasicPlan task) ∧
    (∀ p, planner.available = true → planner.planTask task ctx = Except.ok p →
      p.error.isSome = true →
      execute planner world task ctx = Except.ok (ExecResult.planFailed p)) := by
  refine ⟨?_, ?_, ?_⟩
  · intro h
    rw [createExecutionPlan, if_pos h]
  · intro e ha he
    rw [createExecutionPlan, if_neg (by simp [ha]), he]
  · intro p ha hp herr
    have hcep : createExecutionPlan planner task ctx = p := by
      rw [createExecutionPlan, if_neg (by simp [ha]), hp]
    rw [execute, executeBody, hcep, if_pos herr]

/-- Witness for C5 (amended): the unavailable planner and the throwing
planner both fall back to the heuristic plan; the unparsable-payload planner
is surfaced as a failed result. -/
theorem planning_failure_amended_witness :
    createExecutionPlan unavailPlanner "t" [] = createBasicPlan "t" ∧
    createExecutionPlan throwingPlanner "t" [] = createBasicPlan "t" ∧
    execute badPlanner worldClaude "t" [] = Except.ok (ExecResult.planFailed badPlan) :=
  ⟨(planning_failure_amended unavailPlanner worldBase "t" []).1 rfl,
   (planning_failure_amended throwingPlanner worldBase "t" []).2.1 "boom" rfl rfl,
   (planning_failure_amended badPlanner worldClaude "t" []).2.2 badPlan rfl rfl rfl⟩

/-- C6 counterexample: a step with unknown action `foo` fails all attempts
under the retry bound, but its final `error_message` is the generic
`Max retries exceeded`, which does not mention `foo` — the recorded message
does not identify the unknown action kind. -/
theorem unknown_action_message_cex :
    (executeStepWithRetries worldBase 0 fooStep).step.status = StepStatus.failed ∧
    (executeStepWithRetries worldBase 0 fooStep).step.attempts = 3 ∧
    (executeStepWithRetries worldBase 0 fooStep).step.error_message =
      some "Max retries exceeded" ∧
    strContains "Max retries exceeded" "foo" = false := by
  exact ⟨by decide, by decide, by decide, by decide⟩

/-- C6 amended: a step whose lower-cased action is outside the dispatch
vocabulary fails on every attempt, is still subject to the retry bound
(exactly `retries + 1` attempts, final status `failed`), and the recorded
`error_message` is the generic `Max retries exceeded` (the unknown action
kind is only logged, not recorded on the step). -/
theorem unknown_action_amended (world : Nat → Collaborators) (tick : Nat) (step : TaskStep)
    (h1 : strLower step.action ≠ "click") (h2 : strLower step.action ≠ "type")
    (h3 : strLower step.action ≠ "navigate") (h4 : strLower step.action ≠ "wait")
    (h5 : strLower step.action ≠ "analyze") (h6 : strLower step.action ≠ "decide")
    (h7 : strLower step.action ≠ "scroll") (h8 : strLower step.action ≠ "key")
    (h0 : step.attempts = 0) :
    (∀ env, executeSingleStep env step = false) ∧
    (executeStepWithRetries world tick step).success = false ∧
    (executeStepWithRetries world tick step).step.status = StepStatus.failed ∧
    (executeStepWithRetries world tick step).step.attempts = step.retries + 1 ∧
    (executeStepWithRetries world tick step).step.error_message =
      some "Max retries exceeded" := by
  have hss : ∀ env, executeSingleStep env step = false := by
    intro env
    rw [executeSingleStep]
    simp [h1, h2, h3, h4, h5, h6, h7, h8]
  have hall := retryGo_all_false (fun t => Except.ok (executeSingleStep (world t) step))
    (fun t => by simp only [hss]) step.retries tick step
  rw [executeStepWithRetries]
  refine ⟨hss, hall.1, hall.2.1, ?_, hall.2.2.1⟩
  have := hall.2.2.2
  omega

/-- Witness for C6 (amended): the `foo` step under `worldBase`. -/
theorem unknown_action_amended_witness :
    executeSingleStep envBase fooStep = false ∧
    (executeStepWithRetries worldBase 0 fooStep).step.attempts = fooStep.retries + 1 :=
  ⟨(unknown_action_amended worldBase 0 fooStep (by decide) (by decide) (by decide) (by decide)
      (by decide) (by decide) (by decide) (by decide) (by decide)).1 envBase,
   (unknown_action_amended worldBase 0 fooStep (by decide) (by decide) (by decide) (by decide)
      (by decide) (by decide) (by decide) (by decide) (by decide)).2.2.2.1⟩

/-- C7: `execute` always returns a result (the top-level catch converts any
escaping exception into a `status 'error'` payload, so nothing ever raises
to the caller), and the retry loop — for ANY dispatcher behaviour,
exception outcomes included — always leaves the step in a terminal
`completed` or `failed` state instead of propagating the exception. -/
theorem execute_never_raises (planner : Planner) (world : Nat → Collaborators)
    (task : String) (ctx : Context) (d : Nat → Except String Bool)
    (rem tick : Nat) (st : TaskStep) :
    (∃ r, execute planner world task ctx = Except.ok r) ∧
    ((retryGo d rem tick st).step.status = StepStatus.completed ∨
      (retryGo d rem tick st).step.status = StepStatus.failed) := by
  constructor
  · rw [execute, executeBody]
    by_cases h : (createExecutionPlan planner task ctx).error.isSome = true
    · rw [if_pos h]
      exact ⟨_, rfl⟩
    · rw [if_neg h]
      exact ⟨_, rfl⟩
  · rw [retryGo_status]
    by_cases hs : (retryGo d rem tick st).success = true
    · rw [if_pos hs]
      exact Or.inl rfl
    · rw [if_neg hs]
      exact Or.inr rfl

/-- C8 counterexample: the transition methods are unguarded — a record in
the terminal `completed` state is moved to `failed` by `fail` (overwriting
its outcome fields) and back to `running` by `start`. -/
theorem terminal_state_mutation_cex :
    completedRec.status = StepStatus.completed ∧
    (completedRec.fail "boom").status = StepStatus.failed ∧
    (completedRec.fail "boom").error_message = some "boom" ∧
    completedRec.start.status = StepStatus.running := by
  exact ⟨by decide, by decide, by decide, by decide⟩

/-- C8 amended: finality of terminal states is a usage discipline of the
executor, not a guard in the methods: every record the plan loop emits is
terminal (`completed` or `failed`), being the result of the single
terminal transition applied by the retry loop (`complete` exactly on
success, `fail` exactly on failure), and no transition method is applied to
it afterwards. -/
theorem terminal_states_final_in_executor (world : Nat → Collaborators) (plan : Plan)
    (d : Nat → Except String Bool) (rem tick : Nat) (st : TaskStep) :
    (∀ s ∈ (runPlan world plan).executed,
      s.status = StepStatus.completed ∨ s.status = StepStatus.failed) ∧
    ((retryGo d rem tick st).success = true →
      (retryGo d rem tick st).step.status = StepStatus.completed) ∧
    ((retryGo d rem tick st).success = false →
      (retryGo d rem tick st).step.status = StepStatus.failed) := by
  refine ⟨?_, ?_, ?_⟩
  · intro s hs
    exact execLoop_executed_terminal world _ [] 0 0 0 s hs
  · intro hs
    rw [retryGo_status, if_pos hs]
  · intro hs
    rw [retryGo_status, if_neg (by simp [hs])]

/-- Witness for C8 (amended): applied to the `planCrit` run and to a
one-shot succeeding retry loop. -/
theorem terminal_states_final_witness :
    (navFailedRec.status = StepStatus.completed ∨
      navFailedRec.status = StepStatus.failed) ∧
    (retryGo (fun _ => Except.ok true) 0 0 decideStep).step.status =
      StepStatus.completed :=
  ⟨(terminal_states_final_in_executor worldBase planCrit (fun _ => Except.ok true) 0 0
      decideStep).1 navFailedRec (by decide),
   (terminal_states_final_in_executor worldBase planCrit (fun _ => Except.ok true) 0 0
      decideStep).2.1 (by decide)⟩

/-- C9: the click dispatch target is chosen by the first present key among
coordinates, element selector, text match, template image, in that fixed
order, and a click with none of the four present returns failure. -/
theorem click_target_precedence (env : Collaborators) (params : Params) :
    (∀ x y, params.coordinates = some (x, y) →
      executeClickAction env params = env.clickAt x y) ∧
    (∀ sel, params.coordinates = none → params.selector = some sel →
      executeClickAction env params = env.clickElement sel) ∧
    (∀ t, params.coordinates = none → params.selector = none → params.text = some t →
      executeClickAction env params = env.clickElementByText t) ∧
    (∀ tpl, params.coordinates = none → params.selector = none → params.text = none →
      params.template = some tpl → executeClickAction env params = env.clickTemplate tpl) ∧
    (params.coordinates = none → params.selector = none → params.text = none →
      params.template = none → executeClickAction env params = Except.ok false) := by
  refine ⟨?_, ?_, ?_, ?_, ?_⟩
  · intro x y h
    rw [executeClickAction, h]
  · intro sel h1 h2
    rw [executeClickAction, h1, h2]
  · intro t h1 h2 h3
    rw [executeClickAction, h1, h2, h3]
  · intro tpl h1 h2 h3 h4
    rw [executeClickAction, h1, h2, h3, h4]
  · intro h1 h2 h3 h4
    rw [executeClickAction, h1, h2, h3, h4]

/-- Witness for C9: coordinates win when present; all four absent fails. -/
theorem click_target_precedence_witness :
    executeClickAction envBase paramsCoord = envBase.clickAt 3 4 ∧
    executeClickAction envBase {} = Except.ok false :=
  ⟨(click_target_precedence envBase paramsCoord).1 3 4 rfl,
   (click_target_precedence envBase {}).2.2.2.2 rfl rfl rfl rfl⟩

/-- C10: the decide handler returns success for every environment and
parameter dict — also when the LLM client is configured and available —
and a fresh decide step completes on its very first attempt. -/
theorem decide_action_noop (env : Collaborators) (params : Params)
    (world : Nat → Collaborators) (tick : Nat) (step : TaskStep)
    (hdec : strLower step.action = "decide") (h0 : step.attempts = 0) :
    executeDecideAction env params = true ∧
    (executeStepWithRetries world tick step).success = true ∧
    (executeStepWithRetries world tick step).step.status = StepStatus.completed ∧
    (executeStepWithRetries world tick step).step.attempts = 1 := by
  have hdA : ∀ (e : Collaborators) (ps : Params), executeDecideAction e ps = true := by
    intro e ps
    rw [executeDecideAction]
    split <;> rfl
  have hss : ∀ envx, executeSingleStep envx step = true := by
    intro envx
    rw [executeSingleStep]
    simp [hdec, hdA]
  have hfirst := retryGo_first_true (fun t => Except.ok (executeSingleStep (world t) step))
    step.retries tick step (by simp only [hss])
  rw [executeStepWithRetries, hfirst]
  refine ⟨hdA env params, rfl, rfl, ?_⟩
  simp [TaskStep.start, TaskStep.complete, h0]

/-- Witness for C10: a fresh decide step in a world whose LLM client IS
available still succeeds immediately. -/
theorem decide_action_noop_witness :
    executeDecideAction (worldClaude 0) {} = true ∧
    (executeStepWithRetries worldClaude 0 decideStep).success = true ∧
    (executeStepWithRetries worldClaude 0 decideStep).step.attempts = 1 :=
  ⟨(decide_action_noop (worldClaude 0) {} worldClaude 0 decideStep (by decide) rfl).1,
   (decide_action_noop (worldClaude 0) {} worldClaude 0 decideStep (by decide) rfl).2.1,
   (decide_action_noop (worldClaude 0) {} worldClaude 0 decideStep (by decide) rfl).2.2.2⟩

end PCAgent
